import Mathlib

/-!
Shallow embedding of the downtime-detector health-check route handler
(the `POST` function and its helper `getValueByPath` in the repository's
API route source), together with models of the JavaScript runtime
behaviours the handler relies on: truthiness, `String()` coercion,
`String.prototype.split`, `fetch` outcomes, and `querySelector`.
-/

namespace DowntimeDetector

/-- JSON-like JavaScript values, as produced by `response.json()`.
Objects are field lists with distinct keys (as `JSON.parse` produces);
numbers are modelled as integers, which covers every value the claims
touch. -/
inductive JSValue where
  | null
  | bool (b : Bool)
  | num (n : Int)
  | str (s : String)
  | arr (elems : List JSValue)
  | obj (fields : List (String × JSValue))

/-- JavaScript truthiness of a JSON-derived value: `null`, `false`, `0`
and the empty string are falsy; every array and every object (including
the empty object) is truthy. -/
def JSValue.truthy : JSValue → Bool
  | .null => false
  | .bool b => b
  | .num n => n != 0
  | .str s => s != ""
  | .arr _ => true
  | .obj _ => true

mutual

/-- JavaScript `String()` coercion on JSON-derived values:
`String(null) = "null"`, booleans and numbers print their literal form,
arrays join their elements with commas (a `null` element joins as the
empty string, per `Array.prototype.join`), and any plain object prints
as `"[object Object]"`. -/
def jsString : JSValue → String
  | .null => "null"
  | .bool true => "true"
  | .bool false => "false"
  | .num n => toString n
  | .str s => s
  | .arr elems => String.intercalate "," (jsStringElems elems)
  | .obj _ => "[object Object]"

/-- Element-wise stringification used by `Array.prototype.join`:
`null` elements become the empty string, others use `String()`. -/
def jsStringElems : List JSValue → List String
  | [] => []
  | .null :: rest => "" :: jsStringElems rest
  | v :: rest => jsString v :: jsStringElems rest

end

/-- First-match lookup in an object's field list (JSON objects have
distinct keys, so first match is the only match). -/
def lookupField : List (String × JSValue) → String → Option JSValue
  | [], _ => none
  | (k', v) :: rest, k => if k' = k then some v else lookupField rest k

/-- A string that is the canonical decimal form of an array index,
as JavaScript array property access requires. -/
def canonicalIndex (k : String) : Option Nat :=
  match k.toNat? with
  | some n => if toString n = k then some n else none
  | none => none

/-- JavaScript optional-chained property access `prev?.[curr]` on
JSON-derived values: object field lookup; arrays expose `length` and
canonical numeric indices; strings expose `length` and one-character
indexing; property access on `null`, booleans and numbers yields
`undefined` (modelled as `none`; method-valued properties lie outside
the JSON fragment the handler manipulates). -/
def jsGet : JSValue → String → Option JSValue
  | .obj fields, k => lookupField fields k
  | .arr elems, k =>
      if k = "length" then some (.num elems.length)
      else match canonicalIndex k with
        | some n => elems.get? n
        | none => none
  | .str s, k =>
      if k = "length" then some (.num s.length)
      else match canonicalIndex k with
        | some n => (s.toList.get? n).map (fun c => .str (String.mk [c]))
        | none => none
  | _, _ => none

/-- One step of the reducer in `getValueByPath`:
`(prev?.[curr] as Record<string, unknown>) || ...` — an absent property
(`undefined`) or a falsy property value degrades to the empty object. -/
def stepPath (prev : JSValue) (curr : String) : JSValue :=
  match jsGet prev curr with
  | some v => if v.truthy then v else .obj []
  | none => .obj []

/-- `JavaScript `path.split(".")` on a list of characters: splitting the
empty character list yields one empty segment, exactly as
`"".split(".")` yields `[""]`. -/
def splitDotAux : List Char → List Char → List (List Char)
  | [], acc => [acc.reverse]
  | c :: cs, acc =>
      if c = '.' then acc.reverse :: splitDotAux cs []
      else splitDotAux cs (c :: acc)

/-- `path.split(".")`: JavaScript string split on the dot separator.
Note `"".split(".") = [""]` — one empty segment, never the empty list. -/
def splitDot (s : String) : List String :=
  (splitDotAux s.toList []).map (fun l => String.mk l)

/-- The helper `getValueByPath(obj, path)`:
`path.split(".").reduce((prev, curr) => (prev?.[curr]) || ..., obj)`. -/
def getValueByPath (obj : JSValue) (path : String) : JSValue :=
  (splitDot path).foldl stepPath obj

/-- ASCII case-lowering of one character, as
`String.prototype.toLowerCase` acts on the characters the handler
compares (the simple case mapping: `A`–`Z` shift down by 32). -/
def jsLowerChar (c : Char) : Char :=
  if 'A' ≤ c && c ≤ 'Z' then Char.ofNat (c.toNat + 32) else c

/-- `s.toLowerCase()`. -/
def jsToLower (s : String) : String :=
  String.mk (s.toList.map jsLowerChar)

/-- Characters `String.prototype.trim` removes (the ASCII ones; the
further Unicode space characters do not occur in any value the claims
touch). -/
def isJsWhitespace (c : Char) : Bool :=
  c = ' ' || c = '\t' || c = '\n' || c = '\r' || c = '\x0b' || c = '\x0c'

/-- `s.trim()`: strip leading and trailing whitespace. -/
def jsTrim (s : String) : String :=
  String.mk
    (((s.toList.dropWhile isJsWhitespace).reverse.dropWhile
      isJsWhitespace).reverse)

/-- The three status literals the handler emits. -/
inductive Status where
  | up
  | down
  | unknown
deriving DecidableEq

/-- The JSON payload of each `NextResponse.json` call: a status, an
optional `value` field and an optional `error` field. -/
structure CheckResult where
  status : Status
  value : Option JSValue
  error : Option String

/-- The parsed request envelope `CheckStatusRequest`. `type` is kept as
a raw string because the runtime value of a JSON field is unconstrained;
the optional fields are absent (`none`) when the JSON omits them. -/
structure CheckStatusRequest where
  type : String
  url : String
  path : Option String
  selector : Option String
  expectedValue : Option String

/-- An HTTP response as the handler observes it: the numeric status
code, the `content-type` header (`none` when absent), the result of
`response.json()` (`none` when parsing throws), and the body text. -/
structure HttpResponse where
  status : Nat
  contentType : Option String
  jsonBody : Option JSValue
  textBody : String

/-- `response.ok`: status code in the 200–299 range. -/
def HttpResponse.ok (r : HttpResponse) : Bool :=
  200 ≤ r.status && r.status ≤ 299

/-- Outcome of `await fetch(url)`: either the promise rejects with an
error carrying a message (network failure, timeout), or a response is
delivered. -/
inductive FetchOutcome where
  | fetchError (msg : String)
  | success (resp : HttpResponse)

/-- Outcome of `document.querySelector(sel)` on the fetched page:
the call throws a `SyntaxError` `DOMException` when the selector is
invalid (per the DOM standard, which jsdom implements, the empty
selector is invalid), returns no element, or returns the first matching
element, carrying its `textContent`. -/
inductive QueryOutcome where
  | throwsSyntaxError (msg : String)
  | noMatch
  | found (textContent : Option String)

/-- The external world one handler invocation interacts with: the
outcome of the single `fetch`, and the document query function of the
fetched page. Per the DOM standard the query at the empty selector
always throws; theorems that depend on this take it as a hypothesis. -/
structure Env where
  fetchOutcome : FetchOutcome
  query : String → QueryOutcome

/-- JavaScript `String.prototype.includes`: the needle occurs as a
contiguous substring of the haystack. -/
def charListIncludes (needle : List Char) : List Char → Bool
  | [] => needle.isPrefixOf []
  | c :: t => needle.isPrefixOf (c :: t) || charListIncludes needle t

/-- `contentType?.includes("application/json")` — substring test, false
when the header is absent. -/
def contentTypeIncludesJson : Option String → Bool
  | none => false
  | some ct => charListIncludes "application/json".toList ct.toList

/-- `${contentType || "unknown content type"}` — an absent or empty
header prints as `"unknown content type"`. -/
def contentTypeName : Option String → String
  | none => "unknown content type"
  | some ct => if ct = "" then "unknown content type" else ct

/-- JavaScript string truthiness of an optional string field, as tested
by `if (expectedValue)`: absent (`undefined`) and the empty string are
falsy. -/
def optStringTruthy : Option String → Bool
  | none => false
  | some s => s != ""

/-- `x || ""` on an optional string: `path || ""` and `selector || ""`
both map an absent or empty value to the empty string. -/
def orEmpty : Option String → String
  | none => ""
  | some s => s

/-- `element.textContent?.trim() || ""`. -/
def elementTextOf : Option String → String
  | none => ""
  | some t => if jsTrim t = "" then "" else jsTrim t

/-- The route handler `POST`. Its argument is the outcome of
`await request.json()` (`Except.error` when the body is unparseable and
the call throws, which the outer `catch` turns into `status: "unknown"`),
plus the external world. The result is `none` when the function falls
off the end without returning a response (a parsed envelope whose `type`
is neither `"api"` nor `"page"`), and otherwise the JSON payload of the
`NextResponse` returned. A thrown `fetch` rejection or `querySelector`
exception propagates to the outer `catch`, which answers
`status: "unknown"` with the error's message. -/
def POST (body : Except String CheckStatusRequest) (env : Env) :
    Option CheckResult :=
  match body with
  | .error msg => some ⟨.unknown, none, some msg⟩
  | .ok req =>
    if req.type = "api" then
      match env.fetchOutcome with
      | .fetchError msg => some ⟨.unknown, none, some msg⟩
      | .success resp =>
        if !resp.ok then
          some ⟨.down, none,
            some ("API request failed with status " ++ toString resp.status)⟩
        else if !contentTypeIncludesJson resp.contentType then
          some ⟨.down, none,
            some ("Expected JSON response but got " ++
              contentTypeName resp.contentType)⟩
        else
          match resp.jsonBody with
          | none => some ⟨.down, none, some "Failed to parse JSON response"⟩
          | some data =>
            let statusValue := getValueByPath data (orEmpty req.path)
            if optStringTruthy req.expectedValue then
              let expected := orEmpty req.expectedValue
              let isUp :=
                jsToLower (jsString statusValue) == jsToLower expected
              some ⟨if isUp then .up else .down, some statusValue, none⟩
            else
              some ⟨if statusValue.truthy then .up else .down,
                some statusValue, none⟩
    else if req.type = "page" then
      match env.fetchOutcome with
      | .fetchError msg => some ⟨.unknown, none, some msg⟩
      | .success resp =>
        if !resp.ok then
          some ⟨.down, none, some "Page request failed"⟩
        else
          match env.query (orEmpty req.selector) with
          | .throwsSyntaxError msg => some ⟨.unknown, none, some msg⟩
          | .noMatch => some ⟨.down, none, some "Element not found"⟩
          | .found textContent =>
            let elementText := elementTextOf textContent
            if optStringTruthy req.expectedValue then
              let expected := orEmpty req.expectedValue
              let isUp := jsToLower elementText == jsToLower expected
              some ⟨if isUp then .up else .down, some (.str elementText), none⟩
            else
              some ⟨.up, some (.str elementText), none⟩
    else
      none

/-- A sample parsed body, `{"status":{"isOperational":true}}` in JSON
notation. -/
def sampleBody : JSValue :=
  .obj [("status", .obj [("isOperational", .bool true)])]

/-- A 200 response declaring JSON content, with the given parsed body. -/
def jsonResp (data : JSValue) : HttpResponse :=
  ⟨200, some "application/json", some data, ""⟩

/-- A world where the fetch delivers `jsonResp data` and no selector
matches. -/
def jsonEnv (data : JSValue) : Env :=
  ⟨.success (jsonResp data), fun _ => .noMatch⟩

/-- A 503 response. -/
def resp503 : HttpResponse := ⟨503, none, none, ""⟩

/-- A world where the fetch delivers a 503 response. -/
def env503 : Env := ⟨.success resp503, fun _ => .noMatch⟩

/-- A world where the fetch promise rejects with the given message. -/
def errEnv (msg : String) : Env := ⟨.fetchError msg, fun _ => .noMatch⟩

/-- A world delivering a 200 HTML page whose document query throws a
`SyntaxError` on the empty selector (as the DOM standard requires) and
matches nothing otherwise. -/
def pageThrowEnv : Env :=
  ⟨.success ⟨200, some "text/html", none, "<p>hello</p>"⟩,
   fun s =>
     if s = "" then
       .throwsSyntaxError "SyntaxError: The provided selector is empty."
     else .noMatch⟩

/-- A world delivering a 200 HTML page whose document query finds, at
the given selector, an element with the given text content, and
matches nothing otherwise. -/
def pageFoundEnv (sel text : String) : Env :=
  ⟨.success ⟨200, some "text/html", none, ""⟩,
   fun s => if s = sel then .found (some text) else .noMatch⟩

/-! ### Helper lemmas about the path traversal -/

lemma orEmpty_some (s : String) : orEmpty (some s) = s := rfl

lemma jsGet_emptyObj (k : String) : jsGet (.obj []) k = none := rfl

lemma foldl_stepPath_emptyObj (segs : List String) :
    List.foldl stepPath (.obj []) segs = .obj [] := by
  induction segs with
  | nil => rfl
  | cons k rest ih => exact ih

lemma stepPath_of_none {p : JSValue} {c : String} (h : jsGet p c = none) :
    stepPath p c = .obj [] := by
  unfold stepPath
  rw [h]

lemma stepPath_of_falsy {p v : JSValue} {c : String}
    (h : jsGet p c = some v) (hf : v.truthy = false) :
    stepPath p c = .obj [] := by
  unfold stepPath
  rw [h]
  simp [hf]

lemma getValueByPath_emptyObj_of_step {data : JSValue} {path : String}
    {segs₁ : List String} {curr : String} {segs₂ : List String}
    (hsplit : splitDot path = segs₁ ++ curr :: segs₂)
    (hstep : stepPath (List.foldl stepPath data segs₁) curr = .obj []) :
    getValueByPath data path = .obj [] := by
  unfold getValueByPath
  rw [hsplit, List.foldl_append, List.foldl_cons, hstep,
    foldl_stepPath_emptyObj]

lemma string_append_ne_empty {s : String} (t : String) (h : s ≠ "") :
    s ++ t ≠ "" := by
  intro hc
  apply h
  have hd := congrArg String.data hc
  rw [String.data_append] at hd
  have hs : s.data = [] := (List.append_eq_nil.mp hd).1
  cases s
  simp_all [String.ext_iff]

/-! ### Claim C1 -/

/-- Claim C1, as stated, is false: in structured-api mode with no
`expectedValue`, a path referencing a missing key yields the empty
object, which is truthy in JavaScript, so the handler answers `up`,
not `down`. Concretely: body `{"status":{"isOperational":true}}` with
path `status.missingField` produces `status = up`. -/
theorem C1_missing_key_counterexample :
    POST (.ok ⟨"api", "https://example.com", some "status.missingField",
        none, none⟩) (jsonEnv sampleBody) =
      some ⟨.up, some (.obj []), none⟩ ∧ Status.up ≠ Status.down := by
  constructor
  · rfl
  · decide

/-- Claim C1, amended: in structured-api mode with no `expectedValue`,
for every request whose `extractionPath` references a key absent at
some step of the traversal, `evaluate` returns `status = up` with the
empty object as extracted value — the extraction miss degrades to an
empty object, which is truthy, so the truthiness classification yields
`up`. -/
theorem C1_missing_key_up (env : Env) (req : CheckStatusRequest)
    (resp : HttpResponse) (data : JSValue) (segs₁ : List String)
    (curr : String) (segs₂ : List String)
    (hA : req.type = "api") (hev : req.expectedValue = none)
    (hf : env.fetchOutcome = .success resp) (hok : resp.ok = true)
    (hct : contentTypeIncludesJson resp.contentType = true)
    (hdata : resp.jsonBody = some data)
    (hsplit : splitDot (orEmpty req.path) = segs₁ ++ curr :: segs₂)
    (hmiss : jsGet (List.foldl stepPath data segs₁) curr = none) :
    POST (.ok req) env = some ⟨.up, some (.obj []), none⟩ := by
  have hval : getValueByPath data (orEmpty req.path) = .obj [] :=
    getValueByPath_emptyObj_of_step hsplit (stepPath_of_none hmiss)
  simp [POST, hA, hf, hok, hct, hdata, hev, hval, optStringTruthy,
    JSValue.truthy]

/-- Witness for `C1_missing_key_up` at a concrete request. -/
theorem C1_missing_key_up_witness :
    POST (.ok ⟨"api", "https://example.com", some "status.missingField",
        none, none⟩) (jsonEnv sampleBody) =
      some ⟨.up, some (.obj []), none⟩ :=
  C1_missing_key_up (jsonEnv sampleBody)
    ⟨"api", "https://example.com", some "status.missingField", none, none⟩
    (jsonResp sampleBody) sampleBody ["status"] "missingField" []
    rfl rfl rfl rfl rfl rfl rfl rfl

/-! ### Claim C2 -/

/-- Claim C2, as stated, is false: traversing a value with the empty
path does not return the root value. In JavaScript `"".split(".")` is
`[""]`, one empty segment, so the traversal performs one property
lookup with the empty-string key: on `{"a":1}` it yields the empty
object, not the root. -/
theorem C2_empty_path_counterexample :
    getValueByPath (.obj [("a", .num 1)]) "" = .obj [] ∧
      JSValue.obj [("a", .num 1)] ≠ JSValue.obj [] := by
  constructor
  · rfl
  · simp

/-- Claim C2, amended: the empty `extractionPath` is legal but does not
yield the root value — `"".split(".")` is `[""]`, so the traversal
performs exactly one lookup with the empty-string key; on an object
with no empty-string key it yields the empty object. -/
theorem C2_empty_path_lookup :
    (∀ v : JSValue, getValueByPath v "" = stepPath v "") ∧
      ∀ fields : List (String × JSValue), lookupField fields "" = none →
        getValueByPath (.obj fields) "" = .obj [] := by
  constructor
  · intro v
    rfl
  · intro fields h
    show stepPath (.obj fields) "" = .obj []
    exact stepPath_of_none h

/-- Witness for `C2_empty_path_lookup` at a concrete object. -/
theorem C2_empty_path_lookup_witness :
    getValueByPath (.obj [("a", .num 1)]) "" = .obj [] :=
  C2_empty_path_lookup.2 [("a", .num 1)] rfl

/-! ### Claim C3 -/

/-- Claim C3, as stated, is false on two points. A transport-level
fetch failure is not turned into `status = down`: the rejection
propagates to the outer catch, which answers `status = unknown`. And in
markup-page mode a non-success HTTP status produces the fixed message
`"Page request failed"`, which does not include the available status
code (here 503). -/
theorem C3_transport_counterexample :
    POST (.ok ⟨"api", "https://example.com", some "a", none, none⟩)
        (errEnv "fetch failed") =
      some ⟨.unknown, none, some "fetch failed"⟩ ∧
    Status.unknown ≠ Status.down ∧
    POST (.ok ⟨"page", "https://example.com", none, some "h1", none⟩)
        env503 =
      some ⟨.down, none, some "Page request failed"⟩ ∧
    charListIncludes "503".toList "Page request failed".toList = false := by
  exact ⟨rfl, by decide, rfl, by decide⟩

/-- Claim C3, amended: in either mode, a fetch that returns a
non-success HTTP status yields `status = down` with a non-empty error
(the structured-api message includes the status code; the markup-page
message is fixed and omits it), while a transport-level fetch failure
is caught by the generic handler and yields `status = unknown` carrying
the failure message — not `down`. -/
theorem C3_http_failure_down :
    (∀ (env : Env) (req : CheckStatusRequest) (resp : HttpResponse),
      (req.type = "api" ∨ req.type = "page") →
      env.fetchOutcome = .success resp → resp.ok = false →
      ∃ r, POST (.ok req) env = some r ∧ r.status = .down ∧
        ∃ e, r.error = some e ∧ e ≠ "") ∧
    (∀ (env : Env) (req : CheckStatusRequest) (msg : String),
      (req.type = "api" ∨ req.type = "page") →
      env.fetchOutcome = .fetchError msg →
      POST (.ok req) env = some ⟨.unknown, none, some msg⟩) := by
  constructor
  · intro env req resp ht hf hok
    rcases ht with hA | hP
    · refine ⟨⟨.down, none,
        some ("API request failed with status " ++ toString resp.status)⟩,
        ?_, rfl, _, rfl, ?_⟩
      · simp [POST, hA, hf, hok]
      · exact string_append_ne_empty _ (by decide)
    · have hA : ¬ req.type = "api" := by rw [hP]; decide
      refine ⟨⟨.down, none, some "Page request failed"⟩, ?_, rfl, _, rfl,
        by decide⟩
      simp [POST, hA, hP, hf, hok]
  · intro env req msg ht hf
    rcases ht with hA | hP
    · simp [POST, hA, hf]
    · have hA : ¬ req.type = "api" := by rw [hP]; decide
      simp [POST, hA, hP, hf]

/-- Witness for `C3_http_failure_down` at concrete requests: a 503 in
structured-api mode, and a rejected fetch in structured-api mode. -/
theorem C3_http_failure_down_witness :
    (∃ r, POST (.ok ⟨"api", "https://example.com", some "a", none, none⟩)
        env503 = some r ∧ r.status = .down ∧
        ∃ e, r.error = some e ∧ e ≠ "") ∧
    POST (.ok ⟨"api", "https://example.com", some "a", none, none⟩)
        (errEnv "network error") =
      some ⟨.unknown, none, some "network error"⟩ :=
  ⟨C3_http_failure_down.1 env503
      ⟨"api", "https://example.com", some "a", none, none⟩ resp503
      (Or.inl rfl) rfl rfl,
    C3_http_failure_down.2 (errEnv "network error")
      ⟨"api", "https://example.com", some "a", none, none⟩ "network error"
      (Or.inl rfl) rfl⟩

/-! ### Claim C4 -/

/-- Claim C4, as stated, is false: a well-formed envelope whose `type`
is neither `"api"` nor `"page"` makes the handler fall off the end
without returning any response, so not every input produces a
`CheckResult`. -/
theorem C4_invalid_type_counterexample :
    POST (.ok ⟨"bogus", "https://example.com", none, none, none⟩)
      (jsonEnv sampleBody) = none := rfl

/-- Claim C4, amended: for every input whose `type` is `"api"` or
`"page"` the handler produces a `CheckResult` with a status among
up, down and unknown, and a malformed envelope produces
`status = unknown` with the parse error's message; `status = unknown`
arises only from the generic catch-all — a malformed envelope, a
rejected fetch, or a selector-query exception. An envelope with any
other `type`, however, produces no response at all. -/
theorem C4_totality_and_unknown :
    (∀ (env : Env) (req : CheckStatusRequest),
      (req.type = "api" ∨ req.type = "page") →
      ∃ r, POST (.ok req) env = some r ∧
        (r.status = .up ∨ r.status = .down ∨ r.status = .unknown)) ∧
    (∀ (env : Env) (msg : String),
      POST (.error msg) env = some ⟨.unknown, none, some msg⟩) ∧
    (∀ (body : Except String CheckStatusRequest) (env : Env)
        (r : CheckResult), POST body env = some r → r.status = .unknown →
      (∃ m, body = .error m) ∨
      (∃ m, env.fetchOutcome = .fetchError m) ∨
      (∃ req m, body = .ok req ∧
        env.query (orEmpty req.selector) = .throwsSyntaxError m)) := by
  refine ⟨?_, ?_, ?_⟩
  · intro env req ht
    suffices hs : (POST (.ok req) env).isSome = true by
      obtain ⟨r, hr⟩ := Option.isSome_iff_exists.mp hs
      exact ⟨r, hr, by cases r.status <;> simp⟩
    rcases ht with hA | hP
    · simp only [POST]
      rw [if_pos hA]
      cases env.fetchOutcome with
      | fetchError msg => rfl
      | success resp =>
        repeat' split
        all_goals rfl
    · have hA : ¬ req.type = "api" := by rw [hP]; decide
      simp only [POST]
      rw [if_neg hA, if_pos hP]
      cases env.fetchOutcome with
      | fetchError msg => rfl
      | success resp =>
        repeat' split
        all_goals rfl
  · intro env msg
    rfl
  · intro body env r hpost hunk
    cases body with
    | error m =>
      exact Or.inl ⟨m, rfl⟩
    | ok req =>
      right
      simp only [POST] at hpost
      by_cases hA : req.type = "api"
      · rw [if_pos hA] at hpost
        split at hpost
        · rename_i msg heq
          exact Or.inl ⟨msg, heq⟩
        · rename_i resp heq
          exfalso
          repeat' split at hpost
          all_goals injection hpost with h
          all_goals subst h
          all_goals simp at hunk
      · by_cases hP : req.type = "page"
        · rw [if_neg hA, if_pos hP] at hpost
          split at hpost
          · rename_i msg heq
            exact Or.inl ⟨msg, heq⟩
          · rename_i resp heq
            split at hpost
            · exfalso
              injection hpost with h
              subst h
              simp at hunk
            · split at hpost
              · rename_i msg hq
                exact Or.inr ⟨req, msg, rfl, hq⟩
              · exfalso
                injection hpost with h
                subst h
                simp at hunk
              · rename_i tc hq
                exfalso
                repeat' split at hpost
                all_goals injection hpost with h
                all_goals subst h
                all_goals simp at hunk
        · rw [if_neg hA, if_neg hP] at hpost
          exact absurd hpost (by simp)

/-- Witness for `C4_totality_and_unknown` at a concrete request. -/
theorem C4_totality_and_unknown_witness :
    ∃ r, POST (.ok ⟨"api", "https://example.com", some "status", none,
        none⟩) (jsonEnv sampleBody) = some r ∧
      (r.status = .up ∨ r.status = .down ∨ r.status = .unknown) :=
  C4_totality_and_unknown.1 (jsonEnv sampleBody)
    ⟨"api", "https://example.com", some "status", none, none⟩ (Or.inl rfl)

/-! ### Claim C5 -/

/-- Claim C5, as stated, is false: with a missing selector the handler
calls `querySelector("")`, and per the DOM standard the empty selector
is invalid, so the call throws a `SyntaxError` which the outer catch
turns into `status = unknown` — not a no-match `down`. -/
theorem C5_missing_selector_counterexample :
    POST (.ok ⟨"page", "https://example.com", none, none, none⟩)
        pageThrowEnv =
      some ⟨.unknown, none,
        some "SyntaxError: The provided selector is empty."⟩ ∧
    Status.unknown ≠ Status.down := by
  exact ⟨rfl, by decide⟩

/-- Claim C5, amended: in markup-page mode, a request with a missing
selector queries the document with the empty string; the DOM query
throws a `SyntaxError` on the empty selector (per the DOM standard,
taken as a hypothesis on the environment), and the outer catch turns
that into `status = unknown` carrying the exception message. -/
theorem C5_missing_selector_unknown (env : Env) (req : CheckStatusRequest)
    (resp : HttpResponse) (msg : String)
    (hP : req.type = "page") (hsel : req.selector = none)
    (hf : env.fetchOutcome = .success resp) (hok : resp.ok = true)
    (hq : env.query "" = .throwsSyntaxError msg) :
    POST (.ok req) env = some ⟨.unknown, none, some msg⟩ := by
  have hA : ¬ req.type = "api" := by rw [hP]; decide
  simp [POST, hA, hP, hf, hok, hsel, orEmpty, hq]

/-- Witness for `C5_missing_selector_unknown` at a concrete request. -/
theorem C5_missing_selector_unknown_witness :
    POST (.ok ⟨"page", "https://example.com", none, none, none⟩)
        pageThrowEnv =
      some ⟨.unknown, none,
        some "SyntaxError: The provided selector is empty."⟩ :=
  C5_missing_selector_unknown pageThrowEnv
    ⟨"page", "https://example.com", none, none, none⟩
    ⟨200, some "text/html", none, "<p>hello</p>"⟩
    "SyntaxError: The provided selector is empty."
    rfl rfl rfl rfl rfl

/-! ### Claim C6 -/

/-- Claim C6, confirmed: in structured-api mode, after a successful
fetch whose declared content type does not contain
`"application/json"`, the handler answers `status = down` with an
error naming the content type (`"unknown content type"` when the
header is absent or empty), and the result does not depend on the body
(`resp.jsonBody` and `resp.textBody` are universally quantified inside
`resp`); in particular `text/plain` never passes the gate, so with that
content type the result is down regardless of body. -/
theorem C6_content_type_down :
    (∀ (env : Env) (req : CheckStatusRequest) (resp : HttpResponse),
      req.type = "api" → env.fetchOutcome = .success resp →
      resp.ok = true → contentTypeIncludesJson resp.contentType = false →
      POST (.ok req) env = some ⟨.down, none,
        some ("Expected JSON response but got " ++
          contentTypeName resp.contentType)⟩) ∧
    contentTypeName none = "unknown content type" ∧
    contentTypeIncludesJson (some "text/plain") = false := by
  refine ⟨?_, rfl, by decide⟩
  intro env req resp hA hf hok hct
  simp [POST, hA, hf, hok, hct]

/-- Witness for `C6_content_type_down` at a `text/plain` response
whose body would even parse as JSON. -/
theorem C6_content_type_down_witness :
    POST (.ok ⟨"api", "https://example.com", some "a", none, none⟩)
      ⟨.success ⟨200, some "text/plain", some (.bool true), "true"⟩,
        fun _ => .noMatch⟩ =
    some ⟨.down, none,
      some "Expected JSON response but got text/plain"⟩ := by
  exact C6_content_type_down.1
    ⟨.success ⟨200, some "text/plain", some (.bool true), "true"⟩,
      fun _ => .noMatch⟩
    ⟨"api", "https://example.com", some "a", none, none⟩
    ⟨200, some "text/plain", some (.bool true), "true"⟩
    rfl rfl rfl (by decide)

/-! ### Claim C7 -/

/-- Claim C7, as stated, is false at a supplied-but-empty
`expectedValue`: with `expectedValue` the empty string (which the
surrounding form submits by default), body `{"a":5}` and path `a`,
the handler answers `up` although the stringified extracted value
`"5"` does not equal the expected `""` case-insensitively — the
JavaScript truthiness test `if (expectedValue)` treats the empty
string like an absent value. -/
theorem C7_empty_expected_counterexample :
    POST (.ok ⟨"api", "https://example.com", some "a", none, some ""⟩)
        (jsonEnv (.obj [("a", .num 5)])) =
      some ⟨.up, some (.num 5), none⟩ ∧
    jsToLower (jsString (.num 5)) ≠ jsToLower "" := by
  exact ⟨rfl, by decide⟩

/-- Claim C7, amended: in structured-api mode after fetch,
content-type check and parse, a non-empty `expectedValue` yields
`up` exactly when the stringified extracted value equals it
case-insensitively (else `down`); an absent — or empty, treated the
same by `if (expectedValue)` — `expectedValue` yields `up` exactly
when the extracted value is truthy; in both cases the result carries
the extracted, pre-comparison value. -/
theorem C7_api_comparison (env : Env) (req : CheckStatusRequest)
    (resp : HttpResponse) (data : JSValue)
    (hA : req.type = "api") (hf : env.fetchOutcome = .success resp)
    (hok : resp.ok = true)
    (hct : contentTypeIncludesJson resp.contentType = true)
    (hdata : resp.jsonBody = some data) :
    (∀ ev, req.expectedValue = some ev → ev ≠ "" →
      POST (.ok req) env = some
        ⟨if jsToLower (jsString (getValueByPath data (orEmpty req.path)))
              == jsToLower ev then .up else .down,
          some (getValueByPath data (orEmpty req.path)), none⟩) ∧
    ((req.expectedValue = none ∨ req.expectedValue = some "") →
      POST (.ok req) env = some
        ⟨if (getValueByPath data (orEmpty req.path)).truthy then .up
          else .down,
          some (getValueByPath data (orEmpty req.path)), none⟩) := by
  constructor
  · intro ev hev hne
    have ht : optStringTruthy (some ev) = true := by
      simp [optStringTruthy]
      exact hne
    simp [POST, hA, hf, hok, hct, hdata, hev, ht, orEmpty_some]
  · intro hev
    have ht : optStringTruthy req.expectedValue = false := by
      rcases hev with h | h <;> simp [h, optStringTruthy]
    simp [POST, hA, hf, hok, hct, hdata, ht]

/-- Witness for `C7_api_comparison`: body
`{"status":{"isOperational":true}}`, path `status.isOperational`,
expected value `"false"` gives `down` with the extracted `true`. -/
theorem C7_api_comparison_witness :
    POST (.ok ⟨"api", "https://example.com", some "status.isOperational",
        none, some "false"⟩) (jsonEnv sampleBody) =
      some ⟨.down, some (.bool true), none⟩ := by
  exact (C7_api_comparison (jsonEnv sampleBody)
    ⟨"api", "https://example.com", some "status.isOperational", none,
      some "false"⟩
    (jsonResp sampleBody) sampleBody rfl rfl rfl rfl rfl).1
    "false" rfl (by decide)

/-! ### Claim C8 -/

/-- Claim C8, as stated, is false at a supplied-but-empty
`expectedValue`: in markup-page mode with `expectedValue` the empty
string and a matched element with text `"Hello"`, the handler answers
`up` although the trimmed text does not equal the expected `""`
case-insensitively — `if (expectedValue)` treats the empty string like
an absent value and takes the presence-only branch. -/
theorem C8_empty_expected_counterexample :
    POST (.ok ⟨"page", "https://example.com", none, some "h1", some ""⟩)
        (pageFoundEnv "h1" "Hello") =
      some ⟨.up, some (.str "Hello"), none⟩ ∧
    jsToLower "Hello" ≠ jsToLower "" := by
  exact ⟨rfl, by decide⟩

/-- Claim C8, amended: in markup-page mode, when the selector matches
a node and `expectedValue` is absent — or empty, treated the same by
`if (expectedValue)` — the handler answers `up` unconditionally, even
for an empty trimmed text, carrying the trimmed text; a non-empty
`expectedValue` yields `up` exactly when the trimmed text equals it
case-insensitively. -/
theorem C8_page_comparison (env : Env) (req : CheckStatusRequest)
    (resp : HttpResponse) (tc : Option String)
    (hP : req.type = "page") (hf : env.fetchOutcome = .success resp)
    (hok : resp.ok = true)
    (hq : env.query (orEmpty req.selector) = .found tc) :
    ((req.expectedValue = none ∨ req.expectedValue = some "") →
      POST (.ok req) env =
        some ⟨.up, some (.str (elementTextOf tc)), none⟩) ∧
    (∀ ev, req.expectedValue = some ev → ev ≠ "" →
      POST (.ok req) env = some
        ⟨if jsToLower (elementTextOf tc) == jsToLower ev then .up
          else .down, some (.str (elementTextOf tc)), none⟩) := by
  have hA : ¬ req.type = "api" := by rw [hP]; decide
  constructor
  · intro hev
    have ht : optStringTruthy req.expectedValue = false := by
      rcases hev with h | h <;> simp [h, optStringTruthy]
    simp [POST, hA, hP, hf, hok, hq, ht]
  · intro ev hev hne
    have ht : optStringTruthy (some ev) = true := by
      simp [optStringTruthy]
      exact hne
    simp [POST, hA, hP, hf, hok, hq, hev, ht, orEmpty_some]

/-- Witness for `C8_page_comparison`: a matched element whose text is
all whitespace and no expected value still gives `up`, with the empty
trimmed text as value. -/
theorem C8_page_comparison_witness :
    POST (.ok ⟨"page", "https://example.com", none, some "h1", none⟩)
        (pageFoundEnv "h1" "  ") =
      some ⟨.up, some (.str ""), none⟩ := by
  exact (C8_page_comparison (pageFoundEnv "h1" "  ")
    ⟨"page", "https://example.com", none, some "h1", none⟩
    ⟨200, some "text/html", none, ""⟩ (some "  ")
    rfl rfl rfl rfl).1 (Or.inl rfl)

/-! ### Claim C9 -/

/-- Claim C9, confirmed: every `CheckResult` the handler produces
satisfies the invariant — `status = up` implies no error field, and no
result carries both a value and an error. -/
theorem C9_result_invariant (body : Except String CheckStatusRequest)
    (env : Env) (r : CheckResult) (hpost : POST body env = some r) :
    (r.status = .up → r.error = none) ∧
      (r.value = none ∨ r.error = none) := by
  cases body with
  | error m =>
    injection hpost with h
    subst h
    simp
  | ok req =>
    simp only [POST] at hpost
    by_cases hA : req.type = "api"
    · rw [if_pos hA] at hpost
      split at hpost
      · injection hpost with h
        subst h
        simp
      · repeat' split at hpost
        all_goals injection hpost with h
        all_goals subst h
        all_goals simp
    · by_cases hP : req.type = "page"
      · rw [if_neg hA, if_pos hP] at hpost
        split at hpost
        · injection hpost with h
          subst h
          simp
        · repeat' split at hpost
          all_goals injection hpost with h
          all_goals subst h
          all_goals simp
      · rw [if_neg hA, if_neg hP] at hpost
        exact absurd hpost (by simp)

/-- Witness for `C9_result_invariant` at a concrete successful check. -/
theorem C9_result_invariant_witness :
    ((CheckResult.mk .up (some (.bool true)) none).status = .up →
      (CheckResult.mk .up (some (.bool true)) none).error = none) ∧
    ((CheckResult.mk .up (some (.bool true)) none).value = none ∨
      (CheckResult.mk .up (some (.bool true)) none).error = none) :=
  C9_result_invariant
    (.ok ⟨"api", "https://example.com", some "status.isOperational",
      none, none⟩)
    (jsonEnv sampleBody) ⟨.up, some (.bool true), none⟩ rfl

/-! ### Claim C10 -/

/-- Claim C10, confirmed: in structured-api mode, when the traversal
reaches a key that is present but holds a falsy value (`false`, `0`,
`""` or `null`), the reducer's `|| {}` replaces that value with the
empty object, so the whole traversal yields the empty object; with no
`expectedValue` the handler answers `up` (the empty object is truthy),
and with a non-empty `expectedValue` the comparison is made against
`String({}) = "[object Object]"`, never against the original falsy
value's string form. -/
theorem C10_falsy_value_replaced (env : Env) (req : CheckStatusRequest)
    (resp : HttpResponse) (data : JSValue) (segs₁ : List String)
    (curr : String) (segs₂ : List String) (v : JSValue)
    (hA : req.type = "api") (hf : env.fetchOutcome = .success resp)
    (hok : resp.ok = true)
    (hct : contentTypeIncludesJson resp.contentType = true)
    (hdata : resp.jsonBody = some data)
    (hsplit : splitDot (orEmpty req.path) = segs₁ ++ curr :: segs₂)
    (hget : jsGet (List.foldl stepPath data segs₁) curr = some v)
    (hfalsy : v.truthy = false) :
    getValueByPath data (orEmpty req.path) = .obj [] ∧
    (req.expectedValue = none →
      POST (.ok req) env = some ⟨.up, some (.obj []), none⟩) ∧
    (∀ ev, req.expectedValue = some ev → ev ≠ "" →
      POST (.ok req) env = some
        ⟨if jsToLower "[object Object]" == jsToLower ev then .up
          else .down, some (.obj []), none⟩) := by
  have hval : getValueByPath data (orEmpty req.path) = .obj [] :=
    getValueByPath_emptyObj_of_step hsplit (stepPath_of_falsy hget hfalsy)
  refine ⟨hval, ?_, ?_⟩
  · intro hev
    simp [POST, hA, hf, hok, hct, hdata, hev, hval, optStringTruthy,
      JSValue.truthy]
  · intro ev hev hne
    have ht : optStringTruthy (some ev) = true := by
      simp [optStringTruthy]
      exact hne
    simp [POST, hA, hf, hok, hct, hdata, hev, ht, hval, jsString,
      orEmpty_some]

/-- Witness for `C10_falsy_value_replaced`: body `{"a":false}` with
path `a` — the present falsy value is replaced by the empty object and
the truthiness branch answers `up`. -/
theorem C10_falsy_value_replaced_witness :
    getValueByPath (.obj [("a", .bool false)]) (orEmpty (some "a")) =
        .obj [] ∧
    POST (.ok ⟨"api", "https://example.com", some "a", none, none⟩)
        (jsonEnv (.obj [("a", .bool false)])) =
      some ⟨.up, some (.obj []), none⟩ :=
  have h := C10_falsy_value_replaced
    (jsonEnv (.obj [("a", .bool false)]))
    ⟨"api", "https://example.com", some "a", none, none⟩
    (jsonResp (.obj [("a", .bool false)])) (.obj [("a", .bool false)])
    [] "a" [] (.bool false) rfl rfl rfl rfl rfl rfl rfl rfl
  ⟨h.1, h.2.1 rfl⟩

end DowntimeDetector
